import Mathlib

/-!
Verification development for the SMTC media-session bridge implemented in
`src/addons/smtc.cc` (class `SMTCMedia`).  The C++ code keeps three pieces of
state: a callback table `eventCallbacks : map<string, CallbackData>` (one
thread-safe function plus an `active` flag per event-kind string), a
per-session token registry `sessionEventTokens : map<wstring, vector<event_token>>`,
and the pair of manager-level tokens `sessionAddedToken` / `sessionRemovedToken`
(both holding the same `SessionsChanged` registration).  The `SessionsChanged`
lambda additionally captures a mutable `previousSessionIds` snapshot.

The embedding below models identities and event kinds as strings, `std::map`
as an association list with unique keys maintained by a replace-on-insert
operation, WinRT `event_token` values as natural numbers drawn from a fresh
counter (`0` plays the role of the empty token, as in the C++ `value != 0`
checks), and each operation of the class as a pure function on this state.
Where an operation performs externally observable work (releasing a
thread-safe function, unregistering the manager subscription, subscribing a
session, invoking a JavaScript callback) the model also returns the list of
those observable steps, in program order.  Exception behaviour that the code
makes explicit (the catch-all around the `SessionsChanged` lambda body, the
catch-all in `UnregisterAllEvents` and in the destructor) is modelled with an
explicit failure oracle where a claim depends on it.
-/

namespace SMTC

/-- Session identity: `SourceAppUserModelId`, a string key. -/
abbrev Ident := String

/-- Event-kind key: the string passed to `on` / `off`. -/
abbrev Kind := String

/-- The five event-kind strings recognised by `SMTCMedia::On`. -/
def kSessionAdded : Kind := "sessionadded"

/-- Event kind for session removal. -/
def kSessionRemoved : Kind := "sessionremoved"

/-- Event kind for `PlaybackInfoChanged`. -/
def kPlaybackStateChanged : Kind := "playbackstatechanged"

/-- Event kind for `TimelinePropertiesChanged`. -/
def kTimelinePropertiesChanged : Kind := "timelinepropertieschanged"

/-- Event kind for `MediaPropertiesChanged`. -/
def kMediaPropertiesChanged : Kind := "mediapropertieschanged"

/-- The enumerated event kinds accepted by the `On` dispatch chain, in source
order of the `if` / `else if` tests. -/
def validKinds : List Kind :=
  [kSessionAdded, kSessionRemoved, kPlaybackStateChanged,
   kTimelinePropertiesChanged, kMediaPropertiesChanged]

/-- One entry of `eventCallbacks`: the thread-safe function (identified by a
numeric id, since the model only tracks which callback object it is) and the
`active` flag, mirroring `struct CallbackData`. -/
structure CallbackData where
  cb : Nat
  active : Bool
deriving DecidableEq

/-- The mutable state of an `SMTCMedia` instance that the verified claims
touch.  `sessionManager` records whether the WinRT manager handle is non-null;
`tokA` / `tokB` are `sessionAddedToken.value` / `sessionRemovedToken.value`
(`0` = empty token); `prev` is the `previousSessionIds` vector captured by the
`SessionsChanged` lambda; `nextToken` feeds fresh nonzero token values for new
WinRT registrations. -/
structure SMTCState where
  sessionManager : Bool
  tokA : Nat
  tokB : Nat
  sessionEventTokens : List (Ident × List Nat)
  eventCallbacks : List (Kind × CallbackData)
  prev : List Ident
  nextToken : Nat
deriving DecidableEq

/-- State of a freshly constructed `SMTCMedia` whose constructor succeeded:
manager present, no tokens, empty maps. -/
def initState : SMTCState :=
  { sessionManager := true, tokA := 0, tokB := 0, sessionEventTokens := [],
    eventCallbacks := [], prev := [], nextToken := 0 }

/-- Observable steps performed by the diff-and-react pass and by the read
operations. -/
inductive Action
  | registerSession (id : Ident)
  | notify (kind : Kind) (id : Ident)
  | unregisterSession (id : Ident)
  | createRecord (id : Ident)
deriving DecidableEq

/-- Observable teardown steps: releasing a thread-safe function, and calling
`sessionManager.SessionsChanged(token)` to drop the manager subscription. -/
inductive TearStep
  | releaseCb (cb : Nat)
  | mgrUnsub (tok : Nat)
deriving DecidableEq

/-- Result of `SMTCMedia::Off`: final state, observable teardown steps, and
the synchronous error surfaced to the caller (if any). -/
structure OffResult where
  state : SMTCState
  steps : List TearStep
  err : Option String
deriving DecidableEq

/-- `std::map::find` projected to the mapped value. -/
def lookupBy {β : Type} (m : List (String × β)) (k : String) : Option β :=
  (m.find? (fun p => p.1 == k)).map (fun p => p.2)

/-- `std::map::erase(key)`. -/
def removeKey {β : Type} (m : List (String × β)) (k : String) : List (String × β) :=
  m.filter (fun p => p.1 != k)

/-- `m[k] = v` on a `std::map`: the entry for `k` is replaced (keys stay
unique). -/
def insertKey {β : Type} (m : List (String × β)) (k : String) (v : β) : List (String × β) :=
  (k, v) :: removeKey m k

/-- `SMTCMedia::RegisterEventListener`, restricted to its effect on the
`eventCallbacks` map: any existing entry for `eventName` is released and the
slot is replaced by the new thread-safe function with `active = true`. -/
def RegisterEventListener (m : List (Kind × CallbackData)) (k : Kind) (cb : Nat) :
    List (Kind × CallbackData) :=
  insertKey m k ⟨cb, true⟩

/-- `SMTCMedia::GetEventCallback`: returns the stored thread-safe function
only when the entry exists and is active. -/
def GetEventCallback (m : List (Kind × CallbackData)) (k : Kind) : Option Nat :=
  match lookupBy m k with
  | some d => if d.active then some d.cb else none
  | none => none

/-- `SMTCMedia::InvokeCallback` as the list of callback ids that receive one
`NonBlockingCall` delivery for this notification (empty when the slot is
missing or dead, a single delivery otherwise). -/
def InvokeCallback (m : List (Kind × CallbackData)) (k : Kind) : List Nat :=
  match GetEventCallback m k with
  | some cb => [cb]
  | none => []

/-- The kinds whose callback slot is currently live. -/
def liveKinds (m : List (Kind × CallbackData)) : List Kind :=
  (m.filter (fun p => p.2.active)).map (fun p => p.1)

/-- `SMTCMedia::RegisterSessionEvents`: drops any existing token entry for the
identity (after best-effort unregistration of the old tokens) and subscribes
the session to all three per-session events — `PlaybackInfoChanged`,
`TimelinePropertiesChanged`, `MediaPropertiesChanged` in that order — storing
the three freshly issued tokens under the identity. -/
def RegisterSessionEvents (s : SMTCState) (id : Ident) : SMTCState :=
  { s with
    sessionEventTokens :=
      insertKey s.sessionEventTokens id
        [s.nextToken + 1, s.nextToken + 2, s.nextToken + 3],
    nextToken := s.nextToken + 3 }

/-- `SMTCMedia::UnregisterSessionEvents`: erases the identity from
`sessionEventTokens`. -/
def UnregisterSessionEvents (s : SMTCState) (id : Ident) : SMTCState :=
  { s with sessionEventTokens := removeKey s.sessionEventTokens id }

/-- The "added" classification of the diff pass in the `SessionsChanged`
lambda: for each current session, `std::find` over `previousSessionIds`
decides whether it is new. -/
def diffAdded (previous current : List Ident) : List Ident :=
  current.filter (fun id => !(previous.contains id))

/-- The "removed" classification of the diff pass: for each previous id,
`std::find` over `currentSessionIds` decides whether it vanished. -/
def diffRemoved (previous current : List Ident) : List Ident :=
  previous.filter (fun id => !(current.contains id))

/-- The observable steps of one `SessionsChanged` diff-and-react pass, in
program order: the added loop walks the current sessions and, for each one not
previously present, first registers its per-session events and then invokes
the `sessionadded` callback; the removed loop then walks the previous ids and,
for each one no longer present, first invokes the `sessionremoved` callback
and then unregisters the identity. -/
def diffPassActions (previous current : List Ident) : List Action :=
  (current.flatMap (fun id =>
    if previous.contains id then []
    else [Action.registerSession id, Action.notify kSessionAdded id]))
  ++ (previous.flatMap (fun id =>
    if current.contains id then []
    else [Action.notify kSessionRemoved id, Action.unregisterSession id]))

/-- Executes a list of pass steps under a failure oracle: a step whose oracle
bit is set raises, and the surrounding `catch (...)` stops the pass there.
Returns whether the pass ran to completion, together with the steps actually
performed. -/
def runActs (fails : Action → Bool) : List Action → Bool × List Action
  | [] => (true, [])
  | a :: rest =>
    if fails a then (false, [])
    else
      let r := runActs fails rest
      (r.1, a :: r.2)

/-- One `SessionsChanged` pass of the lambda body: perform the diff-and-react
steps; the assignment `previousSessionIds = currentSessionIds` is the last
statement of the `try` block, so the stored snapshot becomes the fresh one
exactly when no step raised; a raised step is swallowed by the `catch (...)`
and leaves the old snapshot in place.  Returns the stored snapshot after the
pass and the steps performed. -/
def execPass (previous current : List Ident) (fails : Action → Bool) :
    List Ident × List Action :=
  let r := runActs fails (diffPassActions previous current)
  (if r.1 then current else previous, r.2)

/-- `SMTCMedia::On` on the model state.  `sessions` is the enumeration
returned by `sessionManager.GetSessions()` at line 378.  The callback is
installed by `RegisterEventListener` before the kind is examined; the
`sessionadded` / `sessionremoved` branch captures the snapshot, registers all
current sessions and takes the single `SessionsChanged` registration (one
fresh token stored in both token fields) when no token exists yet; the three
per-session kinds register all current sessions; any other kind throws
`"Unknown event: <kind>"`. -/
def On (s : SMTCState) (k : Kind) (cb : Nat) (sessions : List Ident) :
    SMTCState × Option String :=
  let s1 : SMTCState := { s with eventCallbacks := RegisterEventListener s.eventCallbacks k cb }
  if k == kSessionAdded || k == kSessionRemoved then
    if s1.tokA == 0 && s1.tokB == 0 then
      let s2 := sessions.foldl RegisterSessionEvents s1
      ({ s2 with prev := sessions, tokA := s2.nextToken + 1, tokB := s2.nextToken + 1,
                 nextToken := s2.nextToken + 1 }, none)
    else (s1, none)
  else if k == kPlaybackStateChanged || k == kTimelinePropertiesChanged
      || k == kMediaPropertiesChanged then
    (sessions.foldl RegisterSessionEvents s1, none)
  else
    (s1, some ("Unknown event: " ++ k))

/-- `SMTCMedia::UnregisterAllEvents` under a failure oracle for the WinRT
manager-unsubscribe calls.  The whole body is inside `try { ... } catch (...)`:
if the first `SessionsChanged(token)` call raises (possible only when the
manager is present and some token is nonzero), everything after it — including
the map clears — is skipped and the state is left as it was.  Otherwise the
manager tokens are dropped, `sessionEventTokens` is cleared, and every still
active callback is released and the callback map cleared. -/
def UnregisterAllEvents (s : SMTCState) (mgrThrow : Bool) : SMTCState × List TearStep :=
  if s.sessionManager && (s.tokA != 0 || s.tokB != 0) && mgrThrow then
    (s, [])
  else
    let p1 : SMTCState × List TearStep :=
      if s.sessionManager then
        ({ s with tokA := 0, tokB := 0 },
          (if s.tokA != 0 then [TearStep.mgrUnsub s.tokA] else [])
          ++ (if s.tokB != 0 then [TearStep.mgrUnsub s.tokB] else []))
      else (s, [])
    let rel := (p1.1.eventCallbacks.filter (fun p => p.2.active)).map
      (fun p => TearStep.releaseCb p.2.cb)
    ({ p1.1 with sessionEventTokens := [], eventCallbacks := [] }, p1.2 ++ rel)

/-- `SMTCMedia::Cleanup` as run from the destructor (whose `catch (...)`
swallows anything that escapes): release every active callback and clear the
callback map, run `UnregisterAllEvents` (whose own catch-all swallows a WinRT
failure, modelled by `mgrThrow`), then null the manager handle. -/
def Cleanup (s : SMTCState) (mgrThrow : Bool) : SMTCState × List TearStep :=
  let rel := (s.eventCallbacks.filter (fun p => p.2.active)).map
    (fun p => TearStep.releaseCb p.2.cb)
  let s1 : SMTCState := { s with eventCallbacks := [] }
  let r := UnregisterAllEvents s1 mgrThrow
  ({ r.1 with sessionManager := false }, rel ++ r.2)

/-- First block of `SMTCMedia::Off`: if the kind has an active entry, move the
thread-safe function out, mark it inactive, erase the entry, and release it. -/
def offRemoveSlot (s : SMTCState) (k : Kind) : SMTCState × List TearStep :=
  match lookupBy s.eventCallbacks k with
  | some d =>
    if d.active then
      ({ s with eventCallbacks := removeKey s.eventCallbacks k }, [TearStep.releaseCb d.cb])
    else (s, [])
  | none => (s, [])

/-- Second block of `SMTCMedia::Off`: for the two session kinds, if neither
`sessionadded` nor `sessionremoved` still has an active listener, unregister
both stored manager tokens (two `SessionsChanged` calls with the same token
value) and zero the fields. -/
def offMgrTokens (s1 : SMTCState) (k : Kind) : SMTCState × List TearStep :=
  if k == kSessionAdded || k == kSessionRemoved then
    if s1.eventCallbacks.any (fun p => p.1 == kSessionAdded && p.2.active)
        || s1.eventCallbacks.any (fun p => p.1 == kSessionRemoved && p.2.active) then
      (s1, [])
    else
      let pA : SMTCState × List TearStep :=
        if s1.tokA == 0 then (s1, [])
        else ({ s1 with tokA := 0 }, [TearStep.mgrUnsub s1.tokA])
      let pB : SMTCState × List TearStep :=
        if pA.1.tokB == 0 then (pA.1, [])
        else ({ pA.1 with tokB := 0 }, [TearStep.mgrUnsub pA.1.tokB])
      (pB.1, pA.2 ++ pB.2)
  else (s1, [])

/-- `SMTCMedia::Off` on the model state.  Note that the event-kind string is
never validated: an unrecognised kind simply finds no map entry and falls
through.  The final block checks whether any active listener remains and, if
not, calls `UnregisterAllEvents`.  The C++ only surfaces an error when a WinRT
call raises (rethrown by the catch blocks as a JavaScript exception); the
model takes the successful-OS path, on which `Off` completes with no error for
every kind string. -/
def Off (s : SMTCState) (k : Kind) : OffResult :=
  let p1 := offRemoveSlot s k
  let p2 := offMgrTokens p1.1 k
  if p2.1.eventCallbacks.any (fun p => p.2.active) then
    { state := p2.1, steps := p1.2 ++ p2.2, err := none }
  else
    let r := UnregisterAllEvents p2.1 false
    { state := r.1, steps := p1.2 ++ p2.2 ++ r.2, err := none }

/-- `SMTCMedia::GetSessions` as its observable per-session steps: every
enumerated session is passed through `RegisterSessionEvents` and then turned
into a record. -/
def GetSessions (sessions : List Ident) : List Action :=
  sessions.flatMap (fun id => [Action.registerSession id, Action.createRecord id])

/-- `SMTCMedia::GetCurrentSession` as its observable steps: the current
session (when present) is only turned into a record; no registration call is
made. -/
def GetCurrentSession : Option Ident → List Action
  | some id => [Action.createRecord id]
  | none => []

/-- `SMTCMedia::GetSessionInfo` as its observable steps: the enumeration is
scanned for the first identity equal to the requested one, and only a record
is built for it; no registration call is made. -/
def GetSessionInfo (sessions : List Ident) (target : Ident) : List Action :=
  match sessions.find? (fun id => id == target) with
  | some id => [Action.createRecord id]
  | none => []

/-- Failure oracle for the pass counterexample: the `sessionadded`
notification step for `"AppB"` raises (e.g. the string conversion or the
enqueue throws), everything else succeeds. -/
def failNotifyB : Action → Bool :=
  fun a => a == Action.notify kSessionAdded ("AppB")

/-- A concrete populated state: manager present, one live per-session
listener, one manager registration, two tracked sessions. -/
def sPopulated : SMTCState :=
  { sessionManager := true, tokA := 9, tokB := 9,
    sessionEventTokens := [("AppA", [1, 2, 3]), ("AppB", [4, 5, 6])],
    eventCallbacks := [(kPlaybackStateChanged, ⟨5, true⟩)],
    prev := ["AppA", "AppB"], nextToken := 9 }

/-- Claim C1: for every pair of snapshots, the diff pass reports as added
exactly the identities in the current snapshot that are not in the previous
one, as removed exactly those in the previous snapshot not in the current one,
the two classifications are disjoint, and together they are exactly the
symmetric difference; all of this holds for empty snapshots as well since the
statement quantifies over arbitrary (possibly empty) lists. -/
theorem c1_diff_partitions : ∀ (P C : List Ident) (x : Ident),
    (x ∈ diffAdded P C ↔ x ∈ C ∧ x ∉ P) ∧
    (x ∈ diffRemoved P C ↔ x ∈ P ∧ x ∉ C) ∧
    (x ∈ diffAdded P C ∧ x ∈ diffRemoved P C ↔ False) ∧
    ((x ∈ diffAdded P C ∨ x ∈ diffRemoved P C) ↔ (x ∈ C ∧ x ∉ P) ∨ (x ∈ P ∧ x ∉ C)) := by
  intro P C x
  have hA : x ∈ diffAdded P C ↔ x ∈ C ∧ x ∉ P := by
    simp [diffAdded, List.mem_filter]
  have hR : x ∈ diffRemoved P C ↔ x ∈ P ∧ x ∉ C := by
    simp [diffRemoved, List.mem_filter]
  refine ⟨hA, hR, ?_, ?_⟩
  · rw [hA, hR]
    constructor
    · rintro ⟨⟨hc, hnp⟩, ⟨hp, _⟩⟩
      exact hnp hp
    · intro h
      exact h.elim
  · rw [hA, hR]

/-- Looking up the key just stored by `insertKey` yields the stored value. -/
theorem lookupBy_insert_self {β : Type} (m : List (String × β)) (k : String) (v : β) :
    lookupBy (insertKey m k v) k = some v := by
  simp [lookupBy, insertKey, List.find?]

/-- After erasing a key, no entry with that key survives any further filter
that requires the key. -/
theorem removeKey_filter_key_active (k : String) :
    ∀ (m : List (String × CallbackData)),
      (removeKey m k).filter (fun p => p.1 == k && p.2.active) = [] := by
  intro m
  induction m with
  | nil => rfl
  | cons a t ih =>
    by_cases h : a.1 = k
    · simpa [removeKey, h] using ih
    · have hb : (a.1 == k) = false := beq_eq_false_iff_ne.mpr h
      have hb' : (a.1 != k) = true := by simp [bne, hb]
      simpa [removeKey, List.filter_cons, hb, hb'] using ih

/-- `RegisterSessionEvents` leaves the callback table untouched. -/
theorem foldl_RegisterSessionEvents_cbs : ∀ (l : List Ident) (s : SMTCState),
    (l.foldl RegisterSessionEvents s).eventCallbacks = s.eventCallbacks := by
  intro l
  induction l with
  | nil => intro s; rfl
  | cons a t ih => intro s; rw [List.foldl_cons]; exact ih _

/-- Whatever branch `On` takes, its effect on the callback table is exactly
`RegisterEventListener`, performed before the kind dispatch. -/
theorem On_eventCallbacks (s : SMTCState) (k : Kind) (cb : Nat) (ss : List Ident) :
    (On s k cb ss).1.eventCallbacks = RegisterEventListener s.eventCallbacks k cb := by
  simp only [On]
  split
  · split
    · simp [foldl_RegisterSessionEvents_cbs]
    · rfl
  · split
    · simp [foldl_RegisterSessionEvents_cbs]
    · rfl

/-- A kind outside the enumerated five fails every string test of the `On`
dispatch chain. -/
theorem beq_false_of_not_valid (k : Kind) (h : k ∉ validKinds) :
    (k == kSessionAdded) = false ∧ (k == kSessionRemoved) = false ∧
    (k == kPlaybackStateChanged) = false ∧ (k == kTimelinePropertiesChanged) = false ∧
    (k == kMediaPropertiesChanged) = false := by
  simp only [validKinds, List.mem_cons, List.not_mem_nil, or_false, not_or] at h
  obtain ⟨h1, h2, h3, h4, h5⟩ := h
  exact ⟨beq_eq_false_iff_ne.mpr h1, beq_eq_false_iff_ne.mpr h2,
    beq_eq_false_iff_ne.mpr h3, beq_eq_false_iff_ne.mpr h4, beq_eq_false_iff_ne.mpr h5⟩

/-- For an unknown kind, `On` lands in the final `else`: the callback has
already been installed, and the error is thrown afterwards. -/
theorem On_unknown (s : SMTCState) (k : Kind) (cb : Nat) (ss : List Ident)
    (h : k ∉ validKinds) :
    On s k cb ss =
      ({ s with eventCallbacks := RegisterEventListener s.eventCallbacks k cb },
        some ("Unknown event: " ++ k)) := by
  obtain ⟨h1, h2, h3, h4, h5⟩ := beq_false_of_not_valid k h
  simp [On, h1, h2, h3, h4, h5]

/-- `Off` surfaces no synchronous error on the successful-OS path, whatever
the kind string. -/
theorem Off_err_none (s : SMTCState) (k : Kind) : (Off s k).err = none := by
  simp only [Off]
  split
  · rfl
  · rfl

/-- Claim C2: after installing `cbA` and then `cbB` for the same kind, the
callback table holds exactly one live entry for that kind, and a notification
for that kind delivers exactly one call, to `cbB`, never to `cbA`. -/
theorem c2_single_live_callback : ∀ (s : SMTCState) (k : Kind) (cbA cbB : Nat)
    (sA sB : List Ident), cbA ≠ cbB →
    ((((On (On s k cbA sA).1 k cbB sB).1.eventCallbacks.filter
        (fun p => p.1 == k && p.2.active)).length = 1) ∧
      InvokeCallback (On (On s k cbA sA).1 k cbB sB).1.eventCallbacks k = [cbB] ∧
      cbA ∉ InvokeCallback (On (On s k cbA sA).1 k cbB sB).1.eventCallbacks k) := by
  intro s k cbA cbB sA sB hne
  have hm : (On (On s k cbA sA).1 k cbB sB).1.eventCallbacks
      = insertKey (RegisterEventListener s.eventCallbacks k cbA) k ⟨cbB, true⟩ := by
    rw [On_eventCallbacks, On_eventCallbacks]
    rfl
  have hinv : InvokeCallback (On (On s k cbA sA).1 k cbB sB).1.eventCallbacks k = [cbB] := by
    rw [hm]
    simp [InvokeCallback, GetEventCallback, lookupBy_insert_self]
  refine ⟨?_, hinv, ?_⟩
  · rw [hm]
    simp [insertKey, List.filter_cons, removeKey_filter_key_active]
  · rw [hinv]
    simp [hne]

/-- Witness for C2 at a concrete input. -/
theorem c2_witness :
    (1 : Nat) ≠ 2 ∧
    ((((On (On initState kSessionAdded 1 []).1 kSessionAdded 2 []).1.eventCallbacks.filter
        (fun p => p.1 == kSessionAdded && p.2.active)).length = 1) ∧
      InvokeCallback (On (On initState kSessionAdded 1 []).1 kSessionAdded 2
        []).1.eventCallbacks kSessionAdded = [2] ∧
      1 ∉ InvokeCallback (On (On initState kSessionAdded 1 []).1 kSessionAdded 2
        []).1.eventCallbacks kSessionAdded) :=
  ⟨by decide, c2_single_live_callback initState kSessionAdded 1 2 [] [] (by decide)⟩

/-- Claim C6 counterexample: `off` with a kind outside the five enumerated
kinds completes without any error — the code never validates the kind in
`Off` — contradicting the claim that both `on` and `off` fail with
`InvalidArgument` for unknown kinds. -/
theorem c6_counterexample :
    ("bogus") ∉ validKinds ∧ (Off initState ("bogus")).err = none := by
  exact ⟨by decide, rfl⟩

/-- Claim C6 (amended): for a kind outside the five enumerated kinds, `On`
does fail synchronously with an "Unknown event" error (after installing the
callback), but `Off` performs no kind validation at all and completes without
error, treating the unknown kind as an absent listener. -/
theorem c6_amended_on_rejects_off_silent : ∀ (s : SMTCState) (k : Kind) (cb : Nat)
    (ss : List Ident), k ∉ validKinds →
    ((On s k cb ss).2 = some ("Unknown event: " ++ k) ∧ (Off s k).err = none) := by
  intro s k cb ss h
  refine ⟨?_, Off_err_none s k⟩
  rw [On_unknown s k cb ss h]

/-- Witness for the amended C6 at a concrete input. -/
theorem c6_witness :
    ("volumeup") ∉ validKinds ∧
    ((On initState ("volumeup") 3 []).2 = some ("Unknown event: " ++ "volumeup") ∧
      (Off initState ("volumeup")).err = none) :=
  ⟨by decide, c6_amended_on_rejects_off_silent initState ("volumeup") 3 [] (by decide)⟩

/-- Claim C9: `On` with a valid callback and an unknown kind string reports
the error to the caller, yet leaves the callback installed and live in the
table under that unknown kind, because `RegisterEventListener` runs before the
kind is examined. -/
theorem c9_unknown_kind_installs : ∀ (s : SMTCState) (k : Kind) (cb : Nat)
    (ss : List Ident), k ∉ validKinds →
    ((On s k cb ss).2 = some ("Unknown event: " ++ k) ∧
      GetEventCallback (On s k cb ss).1.eventCallbacks k = some cb) := by
  intro s k cb ss h
  rw [On_unknown s k cb ss h]
  refine ⟨rfl, ?_⟩
  simp [RegisterEventListener, GetEventCallback, lookupBy_insert_self]

/-- Witness for C9 at a concrete input. -/
theorem c9_witness :
    ("volumechanged") ∉ validKinds ∧
    ((On initState ("volumechanged") 7 []).2 = some ("Unknown event: " ++ "volumechanged") ∧
      GetEventCallback (On initState ("volumechanged") 7 []).1.eventCallbacks
        ("volumechanged") = some 7) :=
  ⟨by decide, c9_unknown_kind_installs initState ("volumechanged") 7 [] (by decide)⟩

/-- A contiguous segment of a list stays one when the list is extended on the
right. -/
theorem seg_append_right {β : Type} {l l1 : List β} (l2 : List β) (h : l <:+: l1) :
    l <:+: l1 ++ l2 := by
  obtain ⟨u, v, huv⟩ := h
  exact ⟨u, v ++ l2, by rw [← huv]; simp⟩

/-- A contiguous segment of a list stays one when the list is extended on the
left. -/
theorem seg_append_left {β : Type} {l l2 : List β} (l1 : List β) (h : l <:+: l2) :
    l <:+: l1 ++ l2 := by
  obtain ⟨u, v, huv⟩ := h
  exact ⟨l1 ++ u, v, by rw [← huv]; simp⟩

/-- The block a loop body emits for one element of the iterated list is a
contiguous segment of everything the loop emits. -/
theorem seg_flatMap_of_mem {α β : Type} (f : α → List β) :
    ∀ (l : List α) (a : α), a ∈ l → f a <:+: l.flatMap f := by
  intro l
  induction l with
  | nil =>
    intro a h
    cases h
  | cons b t ih =>
    intro a h
    rcases List.mem_cons.mp h with h | h
    · subst h
      rw [List.flatMap_cons]
      exact ⟨[], t.flatMap f, by simp⟩
    · rw [List.flatMap_cons]
      exact seg_append_left (f b) (ih a h)

/-- Claim C3: in every diff-and-react pass, each added identity has its
per-session events registered immediately before the `sessionadded`
notification, and each removed identity receives the `sessionremoved`
notification immediately before its events are unregistered. -/
theorem c3_react_order : ∀ (P C : List Ident) (id : Ident),
    (id ∈ diffAdded P C →
      [Action.registerSession id, Action.notify kSessionAdded id] <:+: diffPassActions P C) ∧
    (id ∈ diffRemoved P C →
      [Action.notify kSessionRemoved id, Action.unregisterSession id] <:+: diffPassActions P C) := by
  intro P C id
  constructor
  · intro h
    obtain ⟨hC, hnp⟩ := List.mem_filter.mp h
    have hcon : P.contains id = false := by
      simpa using hnp
    have h1 := seg_flatMap_of_mem
      (fun i => if P.contains i then []
        else [Action.registerSession i, Action.notify kSessionAdded i]) C id hC
    simp only [hcon, Bool.false_eq_true, if_false] at h1
    simp only [diffPassActions]
    exact seg_append_right _ h1
  · intro h
    obtain ⟨hP, hnc⟩ := List.mem_filter.mp h
    have hcon : C.contains id = false := by
      simpa using hnc
    have h1 := seg_flatMap_of_mem
      (fun i => if C.contains i then []
        else [Action.notify kSessionRemoved i, Action.unregisterSession i]) P id hP
    simp only [hcon, Bool.false_eq_true, if_false] at h1
    simp only [diffPassActions]
    exact seg_append_left _ h1

/-- Witness for C3 at the spec scenario: previous `["AppA"]`, current
`["AppB"]`. -/
theorem c3_witness :
    (("AppB") ∈ diffAdded ["AppA"] ["AppB"] ∧
      [Action.registerSession ("AppB"), Action.notify kSessionAdded ("AppB")]
        <:+: diffPassActions ["AppA"] ["AppB"]) ∧
    (("AppA") ∈ diffRemoved ["AppA"] ["AppB"] ∧
      [Action.notify kSessionRemoved ("AppA"), Action.unregisterSession ("AppA")]
        <:+: diffPassActions ["AppA"] ["AppB"]) :=
  ⟨⟨by decide, (c3_react_order ["AppA"] ["AppB"] ("AppB")).1 (by decide)⟩,
    ⟨by decide, (c3_react_order ["AppA"] ["AppB"] ("AppA")).2 (by decide)⟩⟩

/-- A pass none of whose steps raises runs to completion and performs every
step. -/
theorem runActs_all_ok (fails : Action → Bool) :
    ∀ (l : List Action), (∀ a ∈ l, fails a = false) → runActs fails l = (true, l) := by
  intro l
  induction l with
  | nil =>
    intro h
    rfl
  | cons a t ih =>
    intro h
    have ha : fails a = false := h a (List.mem_cons_self a t)
    have ht := ih (fun b hb => h b (List.mem_cons_of_mem a hb))
    simp [runActs, ha, ht]

/-- If a pass ran to completion, it performed exactly the listed steps. -/
theorem runActs_ok_snd (fails : Action → Bool) :
    ∀ (l : List Action), (runActs fails l).1 = true → (runActs fails l).2 = l := by
  intro l
  induction l with
  | nil =>
    intro h
    rfl
  | cons a t ih =>
    intro h
    by_cases ha : fails a = true
    · simp [runActs, ha] at h
    · rw [Bool.not_eq_true] at ha
      simp only [runActs, ha, Bool.false_eq_true, if_false] at h ⊢
      rw [ih h]

/-- Claim C4 counterexample, at the spec scenario `["AppA"]` →
`["AppA", "AppB"]`: if the `sessionadded` notification step for `"AppB"`
raises, the `catch (...)` swallows it but the assignment
`previousSessionIds = currentSessionIds` — the last statement of the `try`
block — never executes, so the stored snapshot is NOT replaced, and the very
next pass against the same current list reports the `"AppB"` addition again. -/
theorem c4_counterexample :
    (runActs failNotifyB (diffPassActions ["AppA"] ["AppA", "AppB"])).1 = false ∧
    (execPass ["AppA"] ["AppA", "AppB"] failNotifyB).1 ≠ ["AppA", "AppB"] ∧
    Action.notify kSessionAdded ("AppB")
      ∈ diffPassActions (execPass ["AppA"] ["AppA", "AppB"] failNotifyB).1
          ["AppA", "AppB"] := by
  decide

/-- Claim C4 (amended): the stored previous snapshot is replaced by the fresh
one exactly when the pass runs to completion; when a diffing, registration or
notification step raises, the error is swallowed but the assignment is
skipped, the old snapshot is retained, and the same transition can be
re-reported by a later pass. -/
theorem c4_amended_snapshot : ∀ (P C : List Ident) (fails : Action → Bool),
    ((runActs fails (diffPassActions P C)).1 = true →
      execPass P C fails = (C, diffPassActions P C)) ∧
    ((runActs fails (diffPassActions P C)).1 = false →
      (execPass P C fails).1 = P) := by
  intro P C fails
  constructor
  · intro h
    have h2 := runActs_ok_snd fails (diffPassActions P C) h
    simp [execPass, h, h2]
  · intro h
    simp [execPass, h]

/-- Witness for the amended C4: the erroring pass keeps the old snapshot, and
an error-free pass stores the new one. -/
theorem c4_amended_witness :
    ((runActs failNotifyB (diffPassActions ["AppA"] ["AppA", "AppB"])).1 = false ∧
      (execPass ["AppA"] ["AppA", "AppB"] failNotifyB).1 = ["AppA"]) ∧
    ((runActs (fun _ => false) (diffPassActions ["AppA"] ["AppA", "AppB"])).1 = true ∧
      execPass ["AppA"] ["AppA", "AppB"] (fun _ => false)
        = (["AppA", "AppB"], diffPassActions ["AppA"] ["AppA", "AppB"])) :=
  ⟨⟨by decide,
      (c4_amended_snapshot ["AppA"] ["AppA", "AppB"] failNotifyB).2 (by decide)⟩,
    ⟨by decide,
      (c4_amended_snapshot ["AppA"] ["AppA", "AppB"] (fun _ => false)).1 (by decide)⟩⟩

/-- After erasing a key, filtering for that key yields nothing. -/
theorem removeKey_filter_self {β : Type} (k : String) :
    ∀ (m : List (String × β)), (removeKey m k).filter (fun p => p.1 == k) = [] := by
  intro m
  induction m with
  | nil => rfl
  | cons a t ih =>
    by_cases h : a.1 = k
    · simp [removeKey, h]
    · have hb : (a.1 == k) = false := beq_eq_false_iff_ne.mpr h
      have hb' : (a.1 != k) = true := by simp [bne, hb]
      simp [removeKey, List.filter_cons, hb, hb']

/-- Erasing a key twice is the same as erasing it once. -/
theorem removeKey_removeKey {β : Type} (k : String) :
    ∀ (m : List (String × β)), removeKey (removeKey m k) k = removeKey m k := by
  intro m
  induction m with
  | nil => rfl
  | cons a t ih =>
    by_cases h : a.1 = k
    · simp [removeKey, h]
    · have hb' : (a.1 != k) = true := by
        simp [bne, beq_eq_false_iff_ne.mpr h]
      simp only [removeKey] at ih ⊢
      simp [List.filter_cons, hb', ih]

/-- Erasing the key just (re)inserted leaves exactly the other entries. -/
theorem removeKey_insertKey {β : Type} (m : List (String × β)) (k : String) (v : β) :
    removeKey (insertKey m k v) k = removeKey m k := by
  have hhd : (k != k) = false := by simp
  calc removeKey (insertKey m k v) k
      = removeKey (removeKey m k) k := by
        simp only [insertKey, removeKey, List.filter_cons, hhd, Bool.false_eq_true, if_false]
    _ = removeKey m k := removeKey_removeKey k m

/-- Claim C5 counterexample: with an empty callback table (zero live kinds),
registering the untracked identity `"AppA"` still installs three per-session
subscriptions (tokens 1, 2, 3) — not "exactly the kinds with a live slot" —
and registering it again while still tracked is not a no-op: the stored
SubscriptionSet changes, because the code unsubscribes the old tokens and
performs three fresh subscriptions (tokens 4, 5, 6). -/
theorem c5_counterexample :
    liveKinds initState.eventCallbacks = [] ∧
    lookupBy (RegisterSessionEvents initState ("AppA")).sessionEventTokens ("AppA")
      = some [1, 2, 3] ∧
    (RegisterSessionEvents (RegisterSessionEvents initState ("AppA"))
        ("AppA")).sessionEventTokens
      ≠ (RegisterSessionEvents initState ("AppA")).sessionEventTokens := by
  decide

/-- Claim C5 (amended): `RegisterSessionEvents` subscribes every identity —
tracked or not — to all three per-session event kinds regardless of which
callback slots are live, storing three fresh token handles; re-registration
therefore does not duplicate subscriptions (the identity keeps exactly one
entry of three tokens, and entries of other identities are untouched), but it
is not a no-op: the stored handles are replaced by fresh ones. -/
theorem c5_amended_reregistration : ∀ (s : SMTCState) (id : Ident),
    lookupBy (RegisterSessionEvents s id).sessionEventTokens id
      = some [s.nextToken + 1, s.nextToken + 2, s.nextToken + 3] ∧
    ((RegisterSessionEvents s id).sessionEventTokens.filter
      (fun p => p.1 == id)).length = 1 ∧
    removeKey (RegisterSessionEvents s id).sessionEventTokens id
      = removeKey s.sessionEventTokens id := by
  intro s id
  refine ⟨lookupBy_insert_self _ _ _, ?_, removeKey_insertKey _ _ _⟩
  simp [RegisterSessionEvents, insertKey, List.filter_cons, removeKey_filter_self]

/-- If the callback map going into `UnregisterAllEvents` is already empty, it
stays empty. -/
theorem UnregisterAllEvents_cbs_nil (s : SMTCState) (b : Bool)
    (h : s.eventCallbacks = []) : (UnregisterAllEvents s b).1.eventCallbacks = [] := by
  simp only [UnregisterAllEvents]
  split
  · exact h
  · rfl

/-- With the manager handle already nulled and the callback map already empty,
`UnregisterAllEvents` performs no observable step. -/
theorem UnregisterAllEvents_trace_nil (s : SMTCState) (b : Bool)
    (hm : s.sessionManager = false) (hc : s.eventCallbacks = []) :
    (UnregisterAllEvents s b).2 = [] := by
  simp [UnregisterAllEvents, hm, hc]

/-- `Cleanup` always nulls the manager handle, even when the WinRT
unregistration raised (the catch-all inside `UnregisterAllEvents` swallows
it and `Cleanup` continues). -/
theorem Cleanup_mgr (s : SMTCState) (b : Bool) :
    (Cleanup s b).1.sessionManager = false := rfl

/-- `Cleanup` always empties the callback map: the release loop clears it
before `UnregisterAllEvents` runs. -/
theorem Cleanup_cbs (s : SMTCState) (b : Bool) :
    (Cleanup s b).1.eventCallbacks = [] := by
  simp only [Cleanup]
  exact UnregisterAllEvents_cbs_nil _ b rfl

/-- Claim C7: teardown always completes — from any state, and even when a
WinRT call during teardown raises (oracle `b`), the first `Cleanup` ends with
the manager handle released and every callback released and cleared, no error
escaping (the model is total because the destructor and `UnregisterAllEvents`
catch everything); and a second `Cleanup`, under any oracle, performs no
observable work: it releases nothing and makes no OS call. -/
theorem c7_cleanup_idempotent : ∀ (s : SMTCState) (b b' : Bool),
    (Cleanup s b).1.sessionManager = false ∧
    (Cleanup s b).1.eventCallbacks = [] ∧
    (Cleanup (Cleanup s b).1 b').2 = [] := by
  intro s b b'
  have h1 : (Cleanup s b).1.sessionManager = false := Cleanup_mgr s b
  have h2 : (Cleanup s b).1.eventCallbacks = [] := Cleanup_cbs s b
  refine ⟨h1, h2, ?_⟩
  generalize hS : (Cleanup s b).1 = t at h1 h2
  simp only [Cleanup, h2, List.filter_nil, List.map_nil, List.nil_append]
  exact UnregisterAllEvents_trace_nil _ b' h1 rfl

/-- Claim C8 counterexample: `GetSessions` does register the session it
enumerates, but `GetCurrentSession` and `GetSessionInfo` freshly enumerate
the very same session and never pass it through `RegisterSessionEvents` —
contradicting the claim that all three read operations do. -/
theorem c8_counterexample :
    (Action.registerSession ("AppA") ∈ GetSessions ["AppA"]) ∧
    (Action.registerSession ("AppA") ∉ GetCurrentSession (some ("AppA"))) ∧
    (Action.registerSession ("AppA") ∉ GetSessionInfo ["AppA"] ("AppA")) := by
  decide

/-- Claim C8 (amended): only `GetSessions` passes each session it enumerates
through `RegisterSessionEvents`; `GetCurrentSession` and `GetSessionInfo`
build their records without registering any session. -/
theorem c8_amended_only_enumeration_registers : ∀ (sessions : List Ident)
    (id target : Ident) (cur : Option Ident),
    (id ∈ sessions → Action.registerSession id ∈ GetSessions sessions) ∧
    (Action.registerSession id ∉ GetCurrentSession cur) ∧
    (Action.registerSession id ∉ GetSessionInfo sessions target) := by
  intro sessions id target cur
  refine ⟨?_, ?_, ?_⟩
  · intro h
    rw [GetSessions, List.mem_flatMap]
    exact ⟨id, h, by simp⟩
  · cases cur with
    | none => simp [GetCurrentSession]
    | some x => simp [GetCurrentSession]
  · simp only [GetSessionInfo]
    cases hf : sessions.find? (fun i => i == target) with
    | none => simp
    | some x => simp

/-- Witness for the amended C8 at a concrete enumeration. -/
theorem c8_witness :
    (("AppB") ∈ ["AppA", "AppB"] ∧
      Action.registerSession ("AppB") ∈ GetSessions ["AppA", "AppB"]) ∧
    Action.registerSession ("AppB") ∉ GetCurrentSession (some ("AppB")) ∧
    Action.registerSession ("AppB") ∉ GetSessionInfo ["AppA", "AppB"] ("AppB") :=
  ⟨⟨by decide,
      (c8_amended_only_enumeration_registers ["AppA", "AppB"] ("AppB") ("AppB")
        (some ("AppB"))).1 (by decide)⟩,
    (c8_amended_only_enumeration_registers ["AppA", "AppB"] ("AppB") ("AppB")
      (some ("AppB"))).2.1,
    (c8_amended_only_enumeration_registers ["AppA", "AppB"] ("AppB") ("AppB")
      (some ("AppB"))).2.2⟩

/-- A callback map with no live kind has no active entry. -/
theorem any_active_false_of_liveKinds_nil (m : List (Kind × CallbackData))
    (h : liveKinds m = []) : (m.any fun p => p.2.active) = false := by
  simp only [liveKinds] at h
  have hfil : m.filter (fun p => p.2.active) = [] := List.map_eq_nil_iff.mp h
  rw [List.any_eq_false]
  intro x hx
  have hall := List.filter_eq_nil_iff.mp hfil x hx
  simpa using hall

/-- The first block of `Off` on an active entry: the slot is erased and the
thread-safe function released. -/
theorem offRemoveSlot_of_active (s : SMTCState) (k : Kind) (d : CallbackData)
    (hl : lookupBy s.eventCallbacks k = some d) (ha : d.active = true) :
    offRemoveSlot s k
      = ({ s with eventCallbacks := removeKey s.eventCallbacks k },
          [TearStep.releaseCb d.cb]) := by
  simp [offRemoveSlot, hl, ha]

/-- The manager-token block of `Off` only touches the token fields: manager
handle, callback map and per-session token registry pass through. -/
theorem offMgrTokens_frame (s1 : SMTCState) (k : Kind) :
    (offMgrTokens s1 k).1.sessionManager = s1.sessionManager ∧
    (offMgrTokens s1 k).1.eventCallbacks = s1.eventCallbacks ∧
    (offMgrTokens s1 k).1.sessionEventTokens = s1.sessionEventTokens := by
  simp only [offMgrTokens]
  repeat' split
  all_goals exact ⟨rfl, rfl, rfl⟩

/-- With the manager present and no WinRT failure, `UnregisterAllEvents`
drops both manager tokens and clears both maps. -/
theorem UnregisterAllEvents_clears (s : SMTCState) (h : s.sessionManager = true) :
    (UnregisterAllEvents s false).1.sessionEventTokens = [] ∧
    (UnregisterAllEvents s false).1.tokA = 0 ∧
    (UnregisterAllEvents s false).1.tokB = 0 ∧
    (UnregisterAllEvents s false).1.eventCallbacks = [] := by
  simp [UnregisterAllEvents, h]

/-- Claim C10: an `Off` call that removes the last active callback of any
kind tears down all cross-kind shared state: the final block observes that no
active listener remains and `UnregisterAllEvents` drops the manager-level
subscription tokens and clears every tracked session's subscription tokens
and the whole callback map — not only state belonging to the removed kind. -/
theorem c10_off_last_listener_teardown : ∀ (s : SMTCState) (k : Kind),
    s.sessionManager = true →
    (GetEventCallback s.eventCallbacks k).isSome = true →
    liveKinds (removeKey s.eventCallbacks k) = [] →
    ((Off s k).state.sessionEventTokens = [] ∧
      (Off s k).state.tokA = 0 ∧ (Off s k).state.tokB = 0 ∧
      (Off s k).state.eventCallbacks = []) := by
  intro s k hm hsome hlive
  obtain ⟨d, hl, ha⟩ : ∃ d, lookupBy s.eventCallbacks k = some d ∧ d.active = true := by
    cases hL : lookupBy s.eventCallbacks k with
    | none => simp [GetEventCallback, hL] at hsome
    | some d =>
      cases hA : d.active with
      | false => simp [GetEventCallback, hL, hA] at hsome
      | true => exact ⟨d, rfl, hA⟩
  have h1 := offRemoveSlot_of_active s k d hl ha
  have hframe := offMgrTokens_frame (offRemoveSlot s k).1 k
  have hcbs1 : (offRemoveSlot s k).1.eventCallbacks = removeKey s.eventCallbacks k := by
    rw [h1]
  have hcbs2 : (offMgrTokens (offRemoveSlot s k).1 k).1.eventCallbacks
      = removeKey s.eventCallbacks k := by
    rw [hframe.2.1, hcbs1]
  have hmgr2 : (offMgrTokens (offRemoveSlot s k).1 k).1.sessionManager = true := by
    rw [hframe.1, h1]
    exact hm
  have hany : ((offMgrTokens (offRemoveSlot s k).1 k).1.eventCallbacks.any
      (fun p => p.2.active)) = false := by
    rw [hcbs2]
    exact any_active_false_of_liveKinds_nil _ hlive
  simp only [Off, hany, Bool.false_eq_true, if_false]
  exact UnregisterAllEvents_clears _ hmgr2

/-- Witness for C10 at a concrete populated state: removing the only live
listener (a per-session kind) clears the manager tokens and every tracked
session's tokens. -/
theorem c10_witness :
    (sPopulated.sessionManager = true ∧
      (GetEventCallback sPopulated.eventCallbacks kPlaybackStateChanged).isSome = true ∧
      liveKinds (removeKey sPopulated.eventCallbacks kPlaybackStateChanged) = []) ∧
    ((Off sPopulated kPlaybackStateChanged).state.sessionEventTokens = [] ∧
      (Off sPopulated kPlaybackStateChanged).state.tokA = 0 ∧
      (Off sPopulated kPlaybackStateChanged).state.tokB = 0 ∧
      (Off sPopulated kPlaybackStateChanged).state.eventCallbacks = []) :=
  ⟨⟨rfl, by decide, by decide⟩,
    c10_off_last_listener_teardown sPopulated kPlaybackStateChanged rfl
      (by decide) (by decide)⟩

end SMTC
